import Mathlib

set_option maxHeartbeats 1000000

/-!
Shallow embedding of `build.py` from the build-moqt repository.

Paths are modelled as lists of path components; `pathJoin` mirrors
`pathlib.Path.__truediv__` (the right operand may itself contain
separators and is split on them).  The project root
(`Path(__file__).parent.resolve()`) is a fixed absolute directory at
run time and is modelled by the constant `PROJECT_ROOT`.

The effectful part of the script (git, cmake, xcodebuild invocations,
directory creation and removal, warnings printed for missing archives)
is modelled by a trace monad `M`: a computation records the list of
observable events it performed and either returns a value or an
exception, mirroring Python exception propagation
(`subprocess.run(..., check=True)` raises `CalledProcessError`, the
Android builders raise `RuntimeError`, and `main` catches everything
and returns exit status 1).
-/

namespace BuildMoqt

/-- A filesystem path, as its list of components. -/
abbrev Fpath := List String

/-- Split a character list at every separator, accumulating the current
component in reverse.  Structural recursion so the kernel can evaluate it. -/
def splitSepAux (sep : Char) : List Char → List Char → List String
  | [], acc => [String.mk acc.reverse]
  | d :: rest, acc =>
      if d = sep then String.mk acc.reverse :: splitSepAux sep rest []
      else splitSepAux sep rest (d :: acc)

/-- Split a string on the path separator. -/
def splitSep (s : String) : List String := splitSepAux '/' s.data []

/-- `pathlib`-style join: the appended string may itself contain
separators and contributes one component per separator-free run. -/
def pathJoin (p : Fpath) (s : String) : Fpath := p ++ splitSep s

/-- Render a path back to a string, as `str(path)` would. -/
def renderPath (p : Fpath) : String := String.intercalate "/" p

/-- The resolved project root (absolute, hence the leading empty component). -/
def PROJECT_ROOT : Fpath := [""]

def DEPS_DIR : Fpath := pathJoin PROJECT_ROOT "_deps"

def SOURCE_DIR : Fpath := pathJoin DEPS_DIR "source"

def BUILD_DIR : Fpath := pathJoin DEPS_DIR "build"

def INSTALL_DIR : Fpath := pathJoin DEPS_DIR "install"

/-- iOS (directory name, PLATFORM value) pairs, in source order. -/
def IOS_TARGETS : List (String × String) :=
  [("device-arm64", "OS64"), ("simulator-arm64", "SIMULATORARM64")]

/-- Android ABIs enumerated by `build_android`, in source order. -/
def ANDROID_ARCHS : List String := ["arm64-v8a", "x86_64"]

/-- The full library list used when `--library all` is selected. -/
def ALL_LIBRARIES : List String := ["msquic", "nghttp3", "nghttp2"]

/-- The build types used when `--build-type all` is selected. -/
def ALL_BUILD_TYPES : List String := ["Release", "Debug"]

/-- `get_build_dir` from `build.py`: per-library build scratch directory. -/
def get_build_dir (platform target build_type lib_name : String) : Fpath :=
  pathJoin (pathJoin (pathJoin (pathJoin BUILD_DIR platform) target) build_type) lib_name

/-- `get_install_dir` from `build.py`: install prefix shared by the
libraries of one (platform, target, build type) cell. -/
def get_install_dir (platform target build_type : String) : Fpath :=
  pathJoin (pathJoin (pathJoin INSTALL_DIR platform) target) build_type

/-- Every (platform, target, buildType, library) combination the script can
actually build: iOS targets and Android ABIs crossed with the build types
and libraries of the command surface. -/
def validCells : List (String × String × String × String) :=
  (IOS_TARGETS.map (fun tp => ("ios", tp.1)) ++ ANDROID_ARCHS.map (fun a => ("android", a))).flatMap
    (fun pt => ALL_BUILD_TYPES.flatMap
      (fun bt => ALL_LIBRARIES.map (fun l => (pt.1, pt.2, bt, l))))

/-- One observable action of the script: an external command (git, cmake,
xcodebuild), a directory creation/removal, or a warning printed for a
missing archive. -/
inductive Event
  | cloneRepo (name : String)
  | gitFetchTags (name : String)
  | gitCheckout (name : String) (r : String)
  | gitSubmodule (name : String)
  | mkdirBuild (platform target build_type lib : String)
  | cmakeConfigure (platform target build_type lib : String)
  | cmakeBuild (platform target build_type lib : String)
  | cmakeInstall (platform target build_type lib : String)
  | warnMissing (p : Fpath)
  | rmBundle (p : Fpath)
  | rmTree (p : Fpath)
  | runTool (cmd : List String)
  deriving DecidableEq

/-- Trace monad: the events performed so far plus either a value or a
propagating Python exception (carried as its message). -/
structure M (α : Type) where
  trace : List Event
  result : Except String α

def M.pure {α : Type} (a : α) : M α := ⟨[], .ok a⟩

def M.bind {α β : Type} (x : M α) (f : α → M β) : M β :=
  match x.result with
  | .error e => ⟨x.trace, .error e⟩
  | .ok a => ⟨x.trace ++ (f a).trace, (f a).result⟩

/-- Record an infallible filesystem action (mkdir, rmtree, a printed warning). -/
def emit (e : Event) : M Unit := ⟨[e], .ok ()⟩

/-- Raise a `RuntimeError`, as the Android builders do. -/
def raiseM {α : Type} (msg : String) : M α := ⟨[], .error msg⟩

/-- One entry of `deps.json`. -/
structure DepInfo where
  url : String
  tag : Option String
  ref : Option String
  deriving DecidableEq

/-- The external world a run interacts with: the loaded manifest, which
source trees already exist, which external commands succeed, the
`ANDROID_NDK_HOME` variable, and which paths exist on disk. -/
structure Env where
  deps : List (String × DepInfo)
  srcExists : String → Bool
  ok : Event → Bool
  ndkHome : Option String
  fsExists : Fpath → Bool

/-- `run_cmd` with `check=True`: the command is attempted (recorded in the
trace) and a non-zero exit raises `CalledProcessError`. -/
def runCmdE (env : Env) (e : Event) : M Unit :=
  ⟨[e], if env.ok e then .ok () else .error "CalledProcessError"⟩

/-- Python truthiness of an optional string (`None` and `""` are falsy). -/
def truthy : Option String → Bool
  | none => false
  | some s => !(s = "")

/-- Python `a or b` on two optional strings. -/
def pyOrOpt (a b : Option String) : Option String := if truthy a then a else b

/-- The `if ref:` block of `clone_or_update`: refresh remotes and check the
pin out whenever `info.get("tag") or info.get("ref")` is truthy. -/
def checkoutStep (env : Env) (name : String) : Option String → M Unit
  | none => M.pure ()
  | some r =>
      if r = "" then M.pure ()
      else M.bind (runCmdE env (.gitFetchTags name)) fun _ => runCmdE env (.gitCheckout name r)

/-- `clone_or_update` from `build.py`: clone when the tree is absent, then
fetch and check out the pin when one is declared, then initialise
submodules, and return the source directory. -/
def clone_or_update (env : Env) (name : String) (info : DepInfo) : M Fpath :=
  M.bind (if env.srcExists name then M.pure () else runCmdE env (.cloneRepo name)) fun _ =>
  M.bind (checkoutStep env name (pyOrOpt info.tag info.ref)) fun _ =>
  M.bind (runCmdE env (.gitSubmodule name)) fun _ =>
  M.pure (pathJoin SOURCE_DIR name)

/-- `fetch_sources` from `build.py`: resolve each requested library that is
present in the manifest, in request order, accumulating a name → path map. -/
def fetch_sources (env : Env) : List String → M (List (String × Fpath))
  | [] => M.pure []
  | name :: rest =>
      match env.deps.lookup name with
      | some info =>
          M.bind (clone_or_update env name info) fun p =>
          M.bind (fetch_sources env rest) fun restS =>
          M.pure ((name, p) :: restS)
      | none => fetch_sources env rest

/-- Shared shape of every per-library build function: create the build
directory, then configure, build and install via cmake, each step failing
on a non-zero exit. -/
def cmakeSteps (env : Env) (platform target build_type lib : String) : M Unit :=
  M.bind (emit (.mkdirBuild platform target build_type lib)) fun _ =>
  M.bind (runCmdE env (.cmakeConfigure platform target build_type lib)) fun _ =>
  M.bind (runCmdE env (.cmakeBuild platform target build_type lib)) fun _ =>
  runCmdE env (.cmakeInstall platform target build_type lib)

def build_msquic_ios (env : Env) (_src : Fpath) (target _platform build_type : String) : M Unit :=
  cmakeSteps env "ios" target build_type "msquic"

def build_nghttp3_ios (env : Env) (_src : Fpath) (target _platform build_type : String) : M Unit :=
  cmakeSteps env "ios" target build_type "nghttp3"

def build_nghttp2_ios (env : Env) (_src : Fpath) (target _platform build_type : String) : M Unit :=
  cmakeSteps env "ios" target build_type "nghttp2"

/-- `build_msquic_android`: reads `ANDROID_NDK_HOME` and raises before the
build directory is created when it is unset or empty. -/
def build_msquic_android (env : Env) (_src : Fpath) (arch build_type : String) : M Unit :=
  if truthy env.ndkHome then cmakeSteps env "android" arch build_type "msquic"
  else raiseM "ANDROID_NDK_HOME environment variable is not set"

def build_nghttp3_android (env : Env) (_src : Fpath) (arch build_type : String) : M Unit :=
  if truthy env.ndkHome then cmakeSteps env "android" arch build_type "nghttp3"
  else raiseM "ANDROID_NDK_HOME environment variable is not set"

def build_nghttp2_android (env : Env) (_src : Fpath) (arch build_type : String) : M Unit :=
  if truthy env.ndkHome then cmakeSteps env "android" arch build_type "nghttp2"
  else raiseM "ANDROID_NDK_HOME environment variable is not set"

/-- Whether `name in sources` holds for the fetched name → path map. -/
def hasSource (sources : List (String × Fpath)) (name : String) : Bool :=
  (sources.lookup name).isSome

/-- `sources[name]`, defined under `hasSource`. -/
def srcOf (sources : List (String × Fpath)) (name : String) : Fpath :=
  (sources.lookup name).getD []

/-- Body of the `build_ios` loops for one (target, build type) cell: the
three libraries in source order, each guarded by membership in the request
and in the fetched sources. -/
def build_ios_cell (env : Env) (sources : List (String × Fpath)) (libraries : List String)
    (target platform build_type : String) : M Unit :=
  M.bind (if libraries.contains "msquic" && hasSource sources "msquic" then
      build_msquic_ios env (srcOf sources "msquic") target platform build_type
    else M.pure ()) fun _ =>
  M.bind (if libraries.contains "nghttp3" && hasSource sources "nghttp3" then
      build_nghttp3_ios env (srcOf sources "nghttp3") target platform build_type
    else M.pure ()) fun _ =>
  (if libraries.contains "nghttp2" && hasSource sources "nghttp2" then
      build_nghttp2_ios env (srcOf sources "nghttp2") target platform build_type
    else M.pure ())

def build_ios_types (env : Env) (sources : List (String × Fpath)) (libraries : List String)
    (target platform : String) : List String → M Unit
  | [] => M.pure ()
  | bt :: rest =>
      M.bind (build_ios_cell env sources libraries target platform bt) fun _ =>
      build_ios_types env sources libraries target platform rest

def build_ios_targets (env : Env) (sources : List (String × Fpath)) (libraries : List String)
    (build_types : List String) : List (String × String) → M Unit
  | [] => M.pure ()
  | (t, p) :: rest =>
      M.bind (build_ios_types env sources libraries t p build_types) fun _ =>
      build_ios_targets env sources libraries build_types rest

/-- `build_ios` from `build.py`: outer loop over `IOS_TARGETS`, inner loop
over build types, innermost the three guarded per-library builds. -/
def build_ios (env : Env) (sources : List (String × Fpath)) (libraries : List String)
    (build_types : List String) : M Unit :=
  build_ios_targets env sources libraries build_types IOS_TARGETS

def build_android_cell (env : Env) (sources : List (String × Fpath)) (libraries : List String)
    (arch build_type : String) : M Unit :=
  M.bind (if libraries.contains "msquic" && hasSource sources "msquic" then
      build_msquic_android env (srcOf sources "msquic") arch build_type
    else M.pure ()) fun _ =>
  M.bind (if libraries.contains "nghttp3" && hasSource sources "nghttp3" then
      build_nghttp3_android env (srcOf sources "nghttp3") arch build_type
    else M.pure ()) fun _ =>
  (if libraries.contains "nghttp2" && hasSource sources "nghttp2" then
      build_nghttp2_android env (srcOf sources "nghttp2") arch build_type
    else M.pure ())

def build_android_types (env : Env) (sources : List (String × Fpath)) (libraries : List String)
    (arch : String) : List String → M Unit
  | [] => M.pure ()
  | bt :: rest =>
      M.bind (build_android_cell env sources libraries arch bt) fun _ =>
      build_android_types env sources libraries arch rest

def build_android_archs (env : Env) (sources : List (String × Fpath)) (libraries : List String)
    (build_types : List String) : List String → M Unit
  | [] => M.pure ()
  | arch :: rest =>
      M.bind (build_android_types env sources libraries arch build_types) fun _ =>
      build_android_archs env sources libraries build_types rest

/-- `build_android` from `build.py`: loop over the two ABIs, then build
types, then the three guarded per-library builds. -/
def build_android (env : Env) (sources : List (String × Fpath)) (libraries : List String)
    (build_types : List String) : M Unit :=
  build_android_archs env sources libraries build_types ANDROID_ARCHS

def xcframework_dir : Fpath := pathJoin INSTALL_DIR "xcframework"

/-- Destination of one bundle: `install/xcframework/<buildType>/<lib>.xcframework`. -/
def xcOutput (build_type lib : String) : Fpath :=
  pathJoin (pathJoin xcframework_dir build_type) (lib ++ ".xcframework")

/-- `install_dir / "lib" / f"lib<name>.a"` for one iOS sub-target. -/
def xcLibPath (target build_type lib : String) : Fpath :=
  pathJoin (pathJoin (get_install_dir "ios" target build_type) "lib") ("lib" ++ lib ++ ".a")

/-- `install_dir / "include"` for one iOS sub-target. -/
def xcIncludePath (target build_type : String) : Fpath :=
  pathJoin (get_install_dir "ios" target build_type) "include"

/-- The per-target loop of `create_xcframework`: collect `-library`
(and conditional `-headers`) arguments for every sub-target whose archive
exists, warning about and skipping the others. -/
def xcfw_args (env : Env) (build_type lib : String) : List (String × String) → M (List String)
  | [] => M.pure []
  | (target, _) :: rest =>
      if env.fsExists (xcLibPath target build_type lib) then
        M.bind (xcfw_args env build_type lib rest) fun restArgs =>
        M.pure ((["-library", renderPath (xcLibPath target build_type lib)] ++
          (if env.fsExists (xcIncludePath target build_type) then
            ["-headers", renderPath (xcIncludePath target build_type)]
          else [])) ++ restArgs)
      else
        M.bind (emit (.warnMissing (xcLibPath target build_type lib))) fun _ =>
        xcfw_args env build_type lib rest

/-- The body of `create_xcframework` for one (build type, library) pair:
remove a pre-existing bundle, gather the per-target arguments, and invoke
`xcodebuild -create-xcframework` once. -/
def xcfw_one (env : Env) (build_type lib : String) : M Unit :=
  M.bind (if env.fsExists (xcOutput build_type lib) then
      emit (.rmBundle (xcOutput build_type lib))
    else M.pure ()) fun _ =>
  M.bind (xcfw_args env build_type lib IOS_TARGETS) fun args =>
  runCmdE env (.runTool (["xcodebuild", "-create-xcframework"] ++ args ++
    ["-output", renderPath (xcOutput build_type lib)]))

def xcfw_libs (env : Env) (build_type : String) : List String → M Unit
  | [] => M.pure ()
  | lib :: rest => M.bind (xcfw_one env build_type lib) fun _ => xcfw_libs env build_type rest

/-- `create_xcframework` from `build.py`: outer loop over build types,
inner loop over libraries. -/
def create_xcframework (env : Env) (libraries : List String) : List String → M Unit
  | [] => M.pure ()
  | bt :: rest =>
      M.bind (xcfw_libs env bt libraries) fun _ => create_xcframework env libraries rest

/-- The parsed command line of `main`. -/
structure Args where
  platform : String
  build_type : String
  library : String
  clean : Bool
  clean_all : Bool
  xcframework : Bool
  xcframework_only : Bool
  fetch_only : Bool

/-- The library list `main` derives from `--library`. -/
def argLibraries (args : Args) : List String :=
  if args.library = "all" then ALL_LIBRARIES else [args.library]

/-- The build-type list `main` derives from `--build-type`. -/
def argBuildTypes (args : Args) : List String :=
  if args.build_type = "all" then ALL_BUILD_TYPES
  else if args.build_type = "release" then ["Release"]
  else ["Debug"]

/-- The clean block of `main`: `--clean-all` removes the whole `_deps`
tree when it exists, otherwise `--clean` removes build and install trees. -/
def cleanStep (env : Env) (args : Args) : M Unit :=
  if args.clean_all && env.fsExists DEPS_DIR then emit (.rmTree DEPS_DIR)
  else if args.clean then
    M.bind (if env.fsExists BUILD_DIR then emit (.rmTree BUILD_DIR) else M.pure ()) fun _ =>
    (if env.fsExists INSTALL_DIR then emit (.rmTree INSTALL_DIR) else M.pure ())
  else M.pure ()

/-- The `try` body of `main`, returning the exit status on the success
path; any exception escapes as the monad's error. -/
def mainBody (env : Env) (args : Args) : M Nat :=
  M.bind (cleanStep env args) fun _ =>
  if args.xcframework_only then
    M.bind (create_xcframework env (argLibraries args) (argBuildTypes args)) fun _ => M.pure 0
  else
    M.bind (fetch_sources env (argLibraries args)) fun sources =>
    if args.fetch_only then M.pure 0
    else
      M.bind
        (if args.platform = "ios" ∨ args.platform = "all" then
          M.bind (build_ios env sources (argLibraries args) (argBuildTypes args)) fun _ =>
          (if args.xcframework then
            create_xcframework env (argLibraries args) (argBuildTypes args)
          else M.pure ())
        else M.pure ()) fun _ =>
      M.bind
        (if args.platform = "android" ∨ args.platform = "all" then
          build_android env sources (argLibraries args) (argBuildTypes args)
        else M.pure ()) fun _ =>
      M.pure 0

/-- `main`: run the body, mapping a propagated exception to exit status 1
(the `except` clauses) and a normal return to its value. -/
def mainRun (env : Env) (args : Args) : List Event × Nat :=
  match mainBody env args with
  | ⟨t, .ok n⟩ => (t, n)
  | ⟨t, .error _⟩ => (t, 1)

/-- Whether an event is a git invocation of `clone_or_update`. -/
def isGitEvent : Event → Bool
  | .cloneRepo _ => true
  | .gitFetchTags _ => true
  | .gitCheckout _ _ => true
  | .gitSubmodule _ => true
  | _ => false

/-- Whether an event is an invocation of the packaging tool. -/
def isRunTool : Event → Bool
  | .runTool _ => true
  | _ => false

/-- Warning events one sub-target contributes in `create_xcframework`:
one warning exactly when its archive is missing. -/
def targetWarn (env : Env) (build_type lib target : String) : List Event :=
  if env.fsExists (xcLibPath target build_type lib) then []
  else [.warnMissing (xcLibPath target build_type lib)]

/-- Command-line arguments one sub-target contributes in
`create_xcframework`: a `-library` entry when its archive exists, plus a
`-headers` entry when its include directory also exists. -/
def targetArgs (env : Env) (build_type lib target : String) : List String :=
  if env.fsExists (xcLibPath target build_type lib) then
    ["-library", renderPath (xcLibPath target build_type lib)] ++
      (if env.fsExists (xcIncludePath target build_type) then
        ["-headers", renderPath (xcIncludePath target build_type)]
      else [])
  else []

/-- The full `xcodebuild -create-xcframework` command line for one
(build type, library) pair. -/
def xcfwCmd (env : Env) (build_type lib : String) : List String :=
  ["xcodebuild", "-create-xcframework"] ++
    (targetArgs env build_type lib "device-arm64" ++
      targetArgs env build_type lib "simulator-arm64") ++
    ["-output", renderPath (xcOutput build_type lib)]

/-- Manifest entry with no pin, used by several concrete scenarios. -/
def unpinned : DepInfo := ⟨"https://example.invalid/repo.git", none, none⟩

/-- Scenario for C2: all three libraries in the manifest, source trees
already present, and the very first cmake configure step (iOS
device-arm64 Release msquic) exits non-zero. -/
def envC2 : Env where
  deps := [("msquic", unpinned), ("nghttp3", unpinned), ("nghttp2", unpinned)]
  srcExists := fun _ => true
  ok := fun e => if e = Event.cmakeConfigure "ios" "device-arm64" "Release" "msquic" then false else true
  ndkHome := none
  fsExists := fun _ => false

def argsC2 : Args := ⟨"ios", "release", "all", false, false, false, false, false⟩

/-- Scenario for C3: two libraries requested, no source trees present,
and the clone of the first library fails. -/
def envC3 : Env where
  deps := [("msquic", unpinned), ("nghttp3", unpinned)]
  srcExists := fun _ => false
  ok := fun e => if e = Event.cloneRepo "msquic" then false else true
  ndkHome := none
  fsExists := fun _ => false

/-- Scenario for C4: the msquic source tree already exists and the
manifest pins it to a tag; every external command succeeds. -/
def envC4 : Env where
  deps := [("msquic", ⟨"https://example.invalid/msquic.git", some "v2.4.8", none⟩)]
  srcExists := fun _ => true
  ok := fun _ => true
  ndkHome := none
  fsExists := fun _ => false

def pinnedC4 : DepInfo := ⟨"https://example.invalid/msquic.git", some "v2.4.8", none⟩

/-- Scenario for C5's counterexample: both platforms requested, msquic
pinned source already present, every external command succeeds, but
`ANDROID_NDK_HOME` is unset. -/
def envC5 : Env where
  deps := [("msquic", unpinned)]
  srcExists := fun _ => true
  ok := fun _ => true
  ndkHome := none
  fsExists := fun _ => false

def argsC5 : Args := ⟨"all", "release", "msquic", false, false, false, false, false⟩

/-- Android-only variant of the C5 scenario, for the amended statement. -/
def argsC5android : Args := ⟨"android", "release", "msquic", false, false, false, false, false⟩

/-- Scenario for C9: the manifest lacks the requested library entirely. -/
def envC9 : Env where
  deps := [("nghttp3", unpinned)]
  srcExists := fun _ => false
  ok := fun _ => true
  ndkHome := none
  fsExists := fun _ => false

/-- Environment for the xcframework witnesses: the device archive and
include directory exist, the simulator archive is missing, no bundle
pre-exists, and every external command succeeds. -/
def envC6 : Env where
  deps := []
  srcExists := fun _ => false
  ok := fun _ => true
  ndkHome := none
  fsExists := fun p =>
    if p = xcLibPath "device-arm64" "Release" "msquic" then true
    else if p = xcIncludePath "device-arm64" "Release" then true
    else false

/-- Environment for the C7 witness: a stale bundle exists at the
destination and both sub-target archives are present. -/
def envC7 : Env where
  deps := []
  srcExists := fun _ => false
  ok := fun _ => true
  ndkHome := none
  fsExists := fun p =>
    if p = xcOutput "Release" "msquic" then true
    else if p = xcLibPath "device-arm64" "Release" "msquic" then true
    else if p = xcLibPath "simulator-arm64" "Release" "msquic" then true
    else false

/-- Environment for the C8 witness: nothing exists on disk at all. -/
def envC8 : Env where
  deps := []
  srcExists := fun _ => false
  ok := fun _ => true
  ndkHome := none
  fsExists := fun _ => false

/-- Environment for the C10 witness: both archives exist, the simulator
include directory exists, but the device include directory is missing. -/
def envC10 : Env where
  deps := []
  srcExists := fun _ => false
  ok := fun _ => true
  ndkHome := none
  fsExists := fun p =>
    if p = xcLibPath "device-arm64" "Release" "msquic" then true
    else if p = xcLibPath "simulator-arm64" "Release" "msquic" then true
    else if p = xcIncludePath "simulator-arm64" "Release" then true
    else false

end BuildMoqt

namespace BuildMoqt

/-- C1: for valid matrix cells, `get_build_dir` and `get_install_dir` are
deterministic pure functions; two cells that differ in any of platform,
target, build type or library get distinct build directories; and the
install directory ignores the library component, so it is shared across
the libraries of one (platform, target, buildType). -/
theorem c1_build_dir_pure_injective :
    ∀ c₁ ∈ validCells, ∀ c₂ ∈ validCells,
      (get_build_dir c₁.1 c₁.2.1 c₁.2.2.1 c₁.2.2.2 =
        get_build_dir c₁.1 c₁.2.1 c₁.2.2.1 c₁.2.2.2) ∧
      (get_install_dir c₁.1 c₁.2.1 c₁.2.2.1 = get_install_dir c₁.1 c₁.2.1 c₁.2.2.1) ∧
      (c₁ ≠ c₂ →
        get_build_dir c₁.1 c₁.2.1 c₁.2.2.1 c₁.2.2.2 ≠
          get_build_dir c₂.1 c₂.2.1 c₂.2.2.1 c₂.2.2.2) ∧
      (c₁.1 = c₂.1 → c₁.2.1 = c₂.2.1 → c₁.2.2.1 = c₂.2.2.1 →
        get_install_dir c₁.1 c₁.2.1 c₁.2.2.1 = get_install_dir c₂.1 c₂.2.1 c₂.2.2.1) := by
  decide

/-- Concrete instance of C1 at two explicit cells. -/
theorem c1_witness :
    ("ios", "device-arm64", "Release", "msquic") ∈ validCells ∧
    ("ios", "device-arm64", "Release", "nghttp3") ∈ validCells ∧
    get_build_dir "ios" "device-arm64" "Release" "msquic" ≠
      get_build_dir "ios" "device-arm64" "Release" "nghttp3" ∧
    get_install_dir "ios" "device-arm64" "Release" =
      get_install_dir "ios" "device-arm64" "Release" := by
  refine ⟨by decide, by decide, ?_, ?_⟩
  · exact (c1_build_dir_pure_injective
      ("ios", "device-arm64", "Release", "msquic") (by decide)
      ("ios", "device-arm64", "Release", "nghttp3") (by decide)).2.2.1 (by decide)
  · exact (c1_build_dir_pure_injective
      ("ios", "device-arm64", "Release", "msquic") (by decide)
      ("ios", "device-arm64", "Release", "nghttp3") (by decide)).2.2.2 rfl rfl rfl

@[simp] theorem M.bind_ok {α β : Type} (t : List Event) (a : α) (f : α → M β) :
    M.bind ⟨t, .ok a⟩ f = ⟨t ++ (f a).trace, (f a).result⟩ := rfl

@[simp] theorem M.bind_error {α β : Type} (t : List Event) (e : String) (f : α → M β) :
    M.bind ⟨t, .error e⟩ f = ⟨t, .error e⟩ := rfl

/-- Every event of a bound computation comes from one of its two stages. -/
theorem M.mem_bind_trace {α β : Type} {x : M α} {f : α → M β} {e : Event}
    (h : e ∈ (M.bind x f).trace) : e ∈ x.trace ∨ ∃ a, e ∈ (f a).trace := by
  obtain ⟨t, r⟩ := x
  cases r with
  | error msg => exact Or.inl h
  | ok a =>
      rcases List.mem_append.mp h with h' | h'
      · exact Or.inl h'
      · exact Or.inr ⟨a, h'⟩

/-- `clone_or_update` only ever runs git commands: its trace contains no
directory creation, cmake step, or packaging-tool invocation. -/
theorem clone_or_update_git_only (env : Env) (name : String) (info : DepInfo) :
    ∀ e ∈ (clone_or_update env name info).trace, isGitEvent e = true := by
  intro e he
  unfold clone_or_update at he
  rcases M.mem_bind_trace he with h | ⟨_, h⟩
  · by_cases hs : env.srcExists name = true
    · rw [if_pos hs] at h; simp [M.pure] at h
    · rw [if_neg hs] at h; simp [runCmdE] at h; subst h; rfl
  · rcases M.mem_bind_trace h with h' | ⟨_, h'⟩
    · rcases hp : pyOrOpt info.tag info.ref with _ | r <;> rw [hp] at h'
      · simp [checkoutStep, M.pure] at h'
      · simp only [checkoutStep] at h'
        by_cases hr : r = ""
        · rw [if_pos hr] at h'; simp [M.pure] at h'
        · rw [if_neg hr] at h'
          rcases M.mem_bind_trace h' with h'' | ⟨_, h''⟩ <;>
            simp [runCmdE] at h'' <;> subst h'' <;> rfl
    · rcases M.mem_bind_trace h' with h'' | ⟨_, h''⟩
      · simp [runCmdE] at h''; subst h''; rfl
      · simp [M.pure] at h''

/-- C3: a fetch/checkout failure for one library is NOT isolated to that
library — the raised `CalledProcessError` propagates out of the
`fetch_sources` loop, so libraries queued after the failing one are never
fetched.  (Libraries resolved before it keep their trees, but the claim's
assertion that later libraries are unaffected is false; this is the
amended statement: the failure aborts the rest of the fetch loop.) -/
theorem c3_fetch_failure_aborts_rest (env : Env) (name : String) (info : DepInfo)
    (rest : List String) (e : String)
    (hdep : env.deps.lookup name = some info)
    (hfail : (clone_or_update env name info).result = .error e) :
    fetch_sources env (name :: rest) =
      ⟨(clone_or_update env name info).trace, .error e⟩ := by
  unfold fetch_sources
  rw [hdep]
  show (M.bind (clone_or_update env name info) fun p =>
      M.bind (fetch_sources env rest) fun restS => M.pure ((name, p) :: restS)) =
    ⟨(clone_or_update env name info).trace, .error e⟩
  rcases hc : clone_or_update env name info with ⟨t, r⟩
  rw [hc] at hfail
  replace hfail : r = .error e := hfail
  subst hfail
  rfl

/-- C3 counterexample: with msquic and nghttp3 both requested and the
clone of msquic failing, the run never attempts any git operation for
nghttp3 — the failure is not isolated to msquic, contradicting the claim
that other requested libraries are unaffected. -/
theorem c3_counterexample :
    (fetch_sources envC3 ["msquic", "nghttp3"]).result = .error "CalledProcessError" ∧
    Event.cloneRepo "nghttp3" ∉ (fetch_sources envC3 ["msquic", "nghttp3"]).trace ∧
    Event.gitSubmodule "nghttp3" ∉ (fetch_sources envC3 ["msquic", "nghttp3"]).trace := by
  refine ⟨rfl, ?_, ?_⟩ <;> decide

/-- Concrete instance of the amended C3 statement. -/
theorem c3_witness :
    fetch_sources envC3 ["msquic", "nghttp3"] =
      ⟨(clone_or_update envC3 "msquic" unpinned).trace, .error "CalledProcessError"⟩ :=
  c3_fetch_failure_aborts_rest envC3 "msquic" unpinned ["nghttp3"] "CalledProcessError" rfl rfl

/-- C4 (amended): re-running `clone_or_update` for a library whose source
tree already exists skips only the `git clone`; whenever the manifest
declares a truthy tag/ref it still runs `git fetch --all --tags` and
`git checkout`, and it always runs `git submodule update --init`. -/
theorem c4_existing_tree_still_fetches (env : Env) (name r : String) (info : DepInfo)
    (hsrc : env.srcExists name = true)
    (hpin : pyOrOpt info.tag info.ref = some r) (hr : r ≠ "")
    (hok1 : env.ok (.gitFetchTags name) = true)
    (hok2 : env.ok (.gitCheckout name r) = true)
    (hok3 : env.ok (.gitSubmodule name) = true) :
    clone_or_update env name info =
      ⟨[.gitFetchTags name, .gitCheckout name r, .gitSubmodule name],
        .ok (pathJoin SOURCE_DIR name)⟩ ∧
    Event.cloneRepo name ∉
      [Event.gitFetchTags name, Event.gitCheckout name r, Event.gitSubmodule name] := by
  constructor
  · unfold clone_or_update
    rw [hpin]
    simp [hsrc, checkoutStep, if_neg hr, runCmdE, hok1, hok2, hok3, M.pure, M.bind]
  · simp

/-- C4 counterexample: the msquic tree already exists, yet the ensure
operation still performs `git fetch --all --tags` (network I/O) and a
submodule update — contradicting the claim that no network fetch occurs. -/
theorem c4_counterexample :
    envC4.srcExists "msquic" = true ∧
    Event.gitFetchTags "msquic" ∈ (clone_or_update envC4 "msquic" pinnedC4).trace ∧
    Event.gitSubmodule "msquic" ∈ (clone_or_update envC4 "msquic" pinnedC4).trace := by
  refine ⟨rfl, ?_, ?_⟩ <;> decide

/-- Concrete instance of the amended C4 statement. -/
theorem c4_witness :
    clone_or_update envC4 "msquic" pinnedC4 =
      ⟨[Event.gitFetchTags "msquic", Event.gitCheckout "msquic" "v2.4.8",
        Event.gitSubmodule "msquic"], .ok (pathJoin SOURCE_DIR "msquic")⟩ ∧
    Event.cloneRepo "msquic" ∉
      [Event.gitFetchTags "msquic", Event.gitCheckout "msquic" "v2.4.8",
        Event.gitSubmodule "msquic"] :=
  c4_existing_tree_still_fetches envC4 "msquic" "v2.4.8" pinnedC4 rfl (by decide) (by decide)
    rfl rfl rfl

/-- C2 (amended): a non-zero exit from any configure/build/install step
aborts the entire matrix run, not just that library for that cell: the
exception propagates out of the loops, no later (library, cell) pair is
attempted, and `main` maps it to exit status 1.  Shown here for a failure
of the very first configure step: the whole `build_ios` run performs
exactly the mkdir and the failing configure, and nothing else. -/
theorem c2_step_failure_aborts_matrix (env : Env) (sources : List (String × Fpath))
    (libraries : List String) (bt : String) (rest : List String) (p : Fpath)
    (hlib : libraries.contains "msquic" = true)
    (hsrc : sources.lookup "msquic" = some p)
    (hfail : env.ok (.cmakeConfigure "ios" "device-arm64" bt "msquic") = false) :
    build_ios env sources libraries (bt :: rest) =
      ⟨[.mkdirBuild "ios" "device-arm64" bt "msquic",
        .cmakeConfigure "ios" "device-arm64" bt "msquic"], .error "CalledProcessError"⟩ := by
  have hhas : hasSource sources "msquic" = true := by simp [hasSource, hsrc]
  have hmem : "msquic" ∈ libraries := by simpa using hlib
  simp [build_ios, IOS_TARGETS, build_ios_targets, build_ios_types, build_ios_cell,
    hlib, hmem, hhas, build_msquic_ios, cmakeSteps, emit, runCmdE, hfail, M.bind, M.pure]

/-- C2 counterexample: all three libraries fetched, the first configure
step fails; the run exits 1, but neither the next library in the same
cell nor any later cell of the same library is ever attempted —
contradicting the claim that the runner continues with the queued pairs. -/
theorem c2_counterexample :
    (mainRun envC2 argsC2).2 = 1 ∧
    Event.mkdirBuild "ios" "device-arm64" "Release" "nghttp3" ∉ (mainRun envC2 argsC2).1 ∧
    Event.cmakeConfigure "ios" "device-arm64" "Release" "nghttp3" ∉ (mainRun envC2 argsC2).1 ∧
    Event.mkdirBuild "ios" "simulator-arm64" "Release" "msquic" ∉ (mainRun envC2 argsC2).1 := by
  refine ⟨rfl, ?_, ?_, ?_⟩ <;> decide

/-- Concrete instance of the amended C2 statement. -/
theorem c2_witness :
    build_ios envC2 [("msquic", pathJoin SOURCE_DIR "msquic")] ALL_LIBRARIES ["Release"] =
      ⟨[Event.mkdirBuild "ios" "device-arm64" "Release" "msquic",
        Event.cmakeConfigure "ios" "device-arm64" "Release" "msquic"],
        .error "CalledProcessError"⟩ :=
  c2_step_failure_aborts_matrix envC2 [("msquic", pathJoin SOURCE_DIR "msquic")]
    ALL_LIBRARIES "Release" [] (pathJoin SOURCE_DIR "msquic") (by decide) rfl (by decide)

/-- C5 (amended): when platform android alone is targeted with
`ANDROID_NDK_HOME` unset or empty, the run does fail before any build
directory is created and before any cmake step: the whole trace consists
of git events from source fetching only, and the exit status is 1.
(The original claim is false when both platforms are requested, because
the entire iOS phase — including build-directory creation and cmake
work — runs before the Android environment check; see the
counterexample.) -/
theorem c5_android_only_fails_before_any_build_dir (env : Env) (info : DepInfo)
    (p : Fpath) (tr : List Event)
    (hndk : truthy env.ndkHome = false)
    (hdep : env.deps.lookup "msquic" = some info)
    (hclone : clone_or_update env "msquic" info = ⟨tr, .ok p⟩) :
    mainRun env argsC5android = (tr, 1) ∧
    ∀ e ∈ (mainRun env argsC5android).1, isGitEvent e = true := by
  have hgit := clone_or_update_git_only env "msquic" info
  rw [hclone] at hgit
  have hmain : mainRun env argsC5android = (tr, 1) := by
    unfold mainRun mainBody
    simp [cleanStep, argsC5android, argLibraries, argBuildTypes, fetch_sources, hdep, hclone,
      build_android, ANDROID_ARCHS, build_android_archs, build_android_types, build_android_cell,
      hasSource, build_msquic_android, hndk, raiseM, M.bind, M.pure]
  exact ⟨hmain, by rw [hmain]; exact hgit⟩

/-- C5 counterexample: with platform "all" requested and
`ANDROID_NDK_HOME` unset, the run does end with the configuration error
(exit 1), but only after iOS build directories were created and iOS
cmake build work ran — contradicting the claim that the failure occurs
before any build directory is created and before any expensive build
work. -/
theorem c5_counterexample :
    (mainRun envC5 argsC5).2 = 1 ∧
    Event.mkdirBuild "ios" "device-arm64" "Release" "msquic" ∈ (mainRun envC5 argsC5).1 ∧
    Event.cmakeBuild "ios" "device-arm64" "Release" "msquic" ∈ (mainRun envC5 argsC5).1 ∧
    Event.cmakeInstall "ios" "simulator-arm64" "Release" "msquic" ∈ (mainRun envC5 argsC5).1 := by
  refine ⟨rfl, ?_, ?_, ?_⟩ <;> decide

/-- Concrete instance of the amended C5 statement. -/
theorem c5_witness :
    mainRun envC5 argsC5android = ([Event.gitSubmodule "msquic"], 1) ∧
    ∀ e ∈ (mainRun envC5 argsC5android).1, isGitEvent e = true :=
  c5_android_only_fails_before_any_build_dir envC5 unpinned (pathJoin SOURCE_DIR "msquic")
    [Event.gitSubmodule "msquic"] rfl rfl rfl

theorem build_ios_cell_no_sources (env : Env) (libraries : List String)
    (t pl bt : String) : build_ios_cell env [] libraries t pl bt = M.pure () := by
  simp [build_ios_cell, hasSource, M.bind, M.pure]

theorem build_ios_types_no_sources (env : Env) (libraries : List String) (t pl : String)
    (bts : List String) : build_ios_types env [] libraries t pl bts = M.pure () := by
  induction bts with
  | nil => rfl
  | cons bt rest ih =>
      simp [build_ios_types, build_ios_cell_no_sources, M.bind, M.pure, ih]

/-- With an empty fetched-source map, the iOS matrix performs no work. -/
theorem build_ios_no_sources (env : Env) (libraries bts : List String) :
    build_ios env [] libraries bts = M.pure () := by
  simp [build_ios, IOS_TARGETS, build_ios_targets, build_ios_types_no_sources, M.bind, M.pure]

theorem build_android_cell_no_sources (env : Env) (libraries : List String)
    (arch bt : String) : build_android_cell env [] libraries arch bt = M.pure () := by
  simp [build_android_cell, hasSource, M.bind, M.pure]

theorem build_android_types_no_sources (env : Env) (libraries : List String) (arch : String)
    (bts : List String) : build_android_types env [] libraries arch bts = M.pure () := by
  induction bts with
  | nil => rfl
  | cons bt rest ih =>
      simp [build_android_types, build_android_cell_no_sources, M.bind, M.pure, ih]

/-- With an empty fetched-source map, the Android matrix performs no work. -/
theorem build_android_no_sources (env : Env) (libraries bts : List String) :
    build_android env [] libraries bts = M.pure () := by
  simp [build_android, ANDROID_ARCHS, build_android_archs, build_android_types_no_sources,
    M.bind, M.pure]

/-- C9: a requested library that is absent from the loaded manifest is
silently skipped: `fetch_sources` omits it from the returned mapping
without raising, both per-platform build loops perform no step for it
(the run's trace is empty), and the run exits with status 0. -/
theorem c9_missing_manifest_library_skipped (env : Env) (lib bt : String)
    (hlib : lib ∈ ALL_LIBRARIES)
    (hdep : env.deps.lookup lib = none) :
    fetch_sources env [lib] = ⟨[], .ok []⟩ ∧
    mainRun env ⟨"all", bt, lib, false, false, false, false, false⟩ = ([], 0) := by
  have hne : lib ≠ "all" := by
    simp [ALL_LIBRARIES] at hlib
    rcases hlib with h | h | h <;> subst h <;> decide
  have hfetch : fetch_sources env [lib] = ⟨[], .ok []⟩ := by
    simp [fetch_sources, hdep, M.pure]
  refine ⟨hfetch, ?_⟩
  unfold mainRun mainBody
  simp [cleanStep, argLibraries, argBuildTypes, hne, hfetch, build_ios_no_sources,
    build_android_no_sources, M.bind, M.pure]

/-- Concrete instance of C9: msquic requested but missing from the
manifest; the whole run performs no action at all and exits 0. -/
theorem c9_witness :
    fetch_sources envC9 ["msquic"] = ⟨[], .ok []⟩ ∧
    mainRun envC9 ⟨"all", "all", "msquic", false, false, false, false, false⟩ = ([], 0) :=
  c9_missing_manifest_library_skipped envC9 "msquic" "all" (by decide) rfl

/-- The per-target loop of `create_xcframework`, evaluated over the two
iOS targets: warnings for missing archives, arguments for present ones. -/
theorem xcfw_args_pair (env : Env) (bt lib : String) :
    xcfw_args env bt lib IOS_TARGETS =
      ⟨targetWarn env bt lib "device-arm64" ++ targetWarn env bt lib "simulator-arm64",
        .ok (targetArgs env bt lib "device-arm64" ++ targetArgs env bt lib "simulator-arm64")⟩ := by
  cases h1 : env.fsExists (xcLibPath "device-arm64" bt lib) <;>
    cases h2 : env.fsExists (xcLibPath "simulator-arm64" bt lib) <;>
      simp [xcfw_args, IOS_TARGETS, targetWarn, targetArgs, h1, h2, emit, M.bind, M.pure]

/-- Closed form of one (build type, library) bundle assembly: optional
removal of a stale bundle, the per-target warnings, then exactly one
packaging-tool invocation whose success decides the overall result. -/
theorem xcfw_one_eq (env : Env) (bt lib : String) :
    xcfw_one env bt lib =
      ⟨(if env.fsExists (xcOutput bt lib) then [Event.rmBundle (xcOutput bt lib)] else []) ++
        (targetWarn env bt lib "device-arm64" ++ targetWarn env bt lib "simulator-arm64") ++
        [Event.runTool (xcfwCmd env bt lib)],
        if env.ok (.runTool (xcfwCmd env bt lib)) then .ok ()
        else .error "CalledProcessError"⟩ := by
  cases hb : env.fsExists (xcOutput bt lib) <;>
    simp [xcfw_one, xcfw_args_pair, xcfwCmd, hb, emit, runCmdE, M.bind, M.pure,
      List.append_assoc]

/-- A single-pair `create_xcframework` request is exactly one bundle
assembly. -/
theorem create_xcframework_single (env : Env) (bt lib : String) :
    create_xcframework env [lib] [bt] = xcfw_one env bt lib := by
  rcases hx : xcfw_one env bt lib with ⟨t, r⟩
  cases r with
  | error e => simp [create_xcframework, xcfw_libs, hx, M.bind, M.pure]
  | ok a => simp [create_xcframework, xcfw_libs, hx, M.bind, M.pure]

/-- C6: when one sub-target's archive is missing, bundle assembly warns
about it, excludes that sub-target (its contribution to the command line
is empty), still invokes the packaging tool, and raises no error: the
bundle is built from the present sub-target alone. -/
theorem c6_missing_archive_skipped_not_fatal (env : Env) (bt lib : String)
    (hdev : env.fsExists (xcLibPath "device-arm64" bt lib) = true)
    (hsim : env.fsExists (xcLibPath "simulator-arm64" bt lib) = false)
    (htool : ∀ c, env.ok (.runTool c) = true) :
    (create_xcframework env [lib] [bt]).result = .ok () ∧
    Event.warnMissing (xcLibPath "simulator-arm64" bt lib) ∈
      (create_xcframework env [lib] [bt]).trace ∧
    Event.runTool (xcfwCmd env bt lib) ∈ (create_xcframework env [lib] [bt]).trace ∧
    xcfwCmd env bt lib =
      ["xcodebuild", "-create-xcframework", "-library",
        renderPath (xcLibPath "device-arm64" bt lib)] ++
      (if env.fsExists (xcIncludePath "device-arm64" bt) then
        ["-headers", renderPath (xcIncludePath "device-arm64" bt)]
      else []) ++
      ["-output", renderPath (xcOutput bt lib)] := by
  rw [create_xcframework_single, xcfw_one_eq]
  refine ⟨by simp [htool], ?_, ?_, ?_⟩
  · simp [targetWarn, hdev, hsim]
  · simp
  · cases hi : env.fsExists (xcIncludePath "device-arm64" bt) <;>
      simp [xcfwCmd, targetArgs, hdev, hsim, hi]

/-- Concrete instance of C6: device archive present (with headers),
simulator archive missing — the bundle is still produced, with a warning
and only the device slice. -/
theorem c6_witness :
    (create_xcframework envC6 ["msquic"] ["Release"]).result = .ok () ∧
    Event.warnMissing (xcLibPath "simulator-arm64" "Release" "msquic") ∈
      (create_xcframework envC6 ["msquic"] ["Release"]).trace ∧
    Event.runTool (xcfwCmd envC6 "Release" "msquic") ∈
      (create_xcframework envC6 ["msquic"] ["Release"]).trace ∧
    xcfwCmd envC6 "Release" "msquic" =
      ["xcodebuild", "-create-xcframework",
        "-library", renderPath (xcLibPath "device-arm64" "Release" "msquic"),
        "-headers", renderPath (xcIncludePath "device-arm64" "Release"),
        "-output", renderPath (xcOutput "Release" "msquic")] := by
  have h := c6_missing_archive_skipped_not_fatal envC6 "Release" "msquic"
    (by decide) (by decide) (fun _ => rfl)
  exact ⟨h.1, h.2.1, h.2.2.1, by rw [h.2.2.2]; decide⟩

/-- C7: whenever a bundle already exists at the destination, its removal
is the very first action of that pair's assembly, and the packaging tool
writes the new bundle only afterwards — a clean rebuild, never a merge. -/
theorem c7_stale_bundle_removed_before_rebuild (env : Env) (bt lib : String)
    (hout : env.fsExists (xcOutput bt lib) = true) :
    ∃ rest, (create_xcframework env [lib] [bt]).trace =
        Event.rmBundle (xcOutput bt lib) :: rest ∧
      Event.runTool (xcfwCmd env bt lib) ∈ rest := by
  rw [create_xcframework_single, xcfw_one_eq]
  refine ⟨targetWarn env bt lib "device-arm64" ++ targetWarn env bt lib "simulator-arm64" ++
    [Event.runTool (xcfwCmd env bt lib)], ?_, ?_⟩
  · simp [hout, List.append_assoc]
  · simp

/-- Concrete instance of C7: a stale msquic bundle is removed first, then
the tool is invoked. -/
theorem c7_witness :
    ∃ rest, (create_xcframework envC7 ["msquic"] ["Release"]).trace =
        Event.rmBundle (xcOutput "Release" "msquic") :: rest ∧
      Event.runTool (xcfwCmd envC7 "Release" "msquic") ∈ rest :=
  c7_stale_bundle_removed_before_rebuild envC7 "Release" "msquic" (by decide)

/-- C8: per (library, buildType) pair the packaging tool is invoked
exactly once, even when both sub-target archives are missing; in that
all-missing case the command still carries `-output` but no `-library`
or `-headers` pair, and the bundle is not skipped. -/
theorem c8_tool_invoked_once_even_all_missing (env : Env) (bt lib : String)
    (hbt : bt ∈ ALL_BUILD_TYPES) (hlib : lib ∈ ALL_LIBRARIES)
    (hdev : env.fsExists (xcLibPath "device-arm64" bt lib) = false)
    (hsim : env.fsExists (xcLibPath "simulator-arm64" bt lib) = false) :
    (create_xcframework env [lib] [bt]).trace.filter isRunTool =
      [Event.runTool (xcfwCmd env bt lib)] ∧
    xcfwCmd env bt lib =
      ["xcodebuild", "-create-xcframework", "-output", renderPath (xcOutput bt lib)] ∧
    "-library" ∉ xcfwCmd env bt lib ∧
    "-headers" ∉ xcfwCmd env bt lib ∧
    "-output" ∈ xcfwCmd env bt lib := by
  have hcmd : xcfwCmd env bt lib =
      ["xcodebuild", "-create-xcframework", "-output", renderPath (xcOutput bt lib)] := by
    simp [xcfwCmd, targetArgs, hdev, hsim]
  refine ⟨?_, hcmd, ?_, ?_, ?_⟩
  · rw [create_xcframework_single, xcfw_one_eq]
    cases hb : env.fsExists (xcOutput bt lib) <;>
      simp [hb, targetWarn, hdev, hsim, isRunTool]
  · rw [hcmd]
    fin_cases hbt <;> fin_cases hlib <;> decide
  · rw [hcmd]
    fin_cases hbt <;> fin_cases hlib <;> decide
  · rw [hcmd]; simp

/-- Concrete instance of C8: nothing on disk, yet the tool is invoked
exactly once, with `-output` only. -/
theorem c8_witness :
    (create_xcframework envC8 ["msquic"] ["Release"]).trace.filter isRunTool =
      [Event.runTool (xcfwCmd envC8 "Release" "msquic")] ∧
    xcfwCmd envC8 "Release" "msquic" =
      ["xcodebuild", "-create-xcframework", "-output",
        renderPath (xcOutput "Release" "msquic")] ∧
    "-library" ∉ xcfwCmd envC8 "Release" "msquic" ∧
    "-headers" ∉ xcfwCmd envC8 "Release" "msquic" ∧
    "-output" ∈ xcfwCmd envC8 "Release" "msquic" :=
  c8_tool_invoked_once_even_all_missing envC8 "Release" "msquic"
    (by decide) (by decide) rfl rfl

/-- C10: when both sub-target archives exist, each sub-target contributes
its `-headers` argument exactly when its include directory exists; a
sub-target whose archive exists but whose include directory does not is
still a `-library` entry without headers, and the tool is invoked with
that command. -/
theorem c10_headers_only_when_include_exists (env : Env) (bt lib : String)
    (hdev : env.fsExists (xcLibPath "device-arm64" bt lib) = true)
    (hsim : env.fsExists (xcLibPath "simulator-arm64" bt lib) = true) :
    xcfwCmd env bt lib =
      ["xcodebuild", "-create-xcframework"] ++
      (["-library", renderPath (xcLibPath "device-arm64" bt lib)] ++
        (if env.fsExists (xcIncludePath "device-arm64" bt) then
          ["-headers", renderPath (xcIncludePath "device-arm64" bt)]
        else [])) ++
      (["-library", renderPath (xcLibPath "simulator-arm64" bt lib)] ++
        (if env.fsExists (xcIncludePath "simulator-arm64" bt) then
          ["-headers", renderPath (xcIncludePath "simulator-arm64" bt)]
        else [])) ++
      ["-output", renderPath (xcOutput bt lib)] ∧
    Event.runTool (xcfwCmd env bt lib) ∈ (create_xcframework env [lib] [bt]).trace := by
  constructor
  · cases hi1 : env.fsExists (xcIncludePath "device-arm64" bt) <;>
      cases hi2 : env.fsExists (xcIncludePath "simulator-arm64" bt) <;>
        simp [xcfwCmd, targetArgs, hdev, hsim, hi1, hi2]
  · rw [create_xcframework_single, xcfw_one_eq]; simp

/-- Concrete instance of C10: both archives exist, the device include
directory is missing while the simulator one exists — the device slice is
included without a `-headers` argument, the simulator slice with one. -/
theorem c10_witness :
    xcfwCmd envC10 "Release" "msquic" =
      ["xcodebuild", "-create-xcframework",
        "-library", renderPath (xcLibPath "device-arm64" "Release" "msquic"),
        "-library", renderPath (xcLibPath "simulator-arm64" "Release" "msquic"),
        "-headers", renderPath (xcIncludePath "simulator-arm64" "Release"),
        "-output", renderPath (xcOutput "Release" "msquic")] ∧
    Event.runTool (xcfwCmd envC10 "Release" "msquic") ∈
      (create_xcframework envC10 ["msquic"] ["Release"]).trace := by
  have h := c10_headers_only_when_include_exists envC10 "Release" "msquic"
    (by decide) (by decide)
  exact ⟨by rw [h.1]; decide, h.2⟩

end BuildMoqt
